import Mathlib

/-!
Verification development for the phaser-dev-ui layout and scroll subsystem.

The definitions below are a shallow embedding of three parts of the repository:

* the scroll viewport `DebugScrollContainer` (clamped scroll math, content
  bounds aggregation, scrollbar thumb geometry),
* the frame-batched layout scheduler `layoutAuto` (dirty-set batching,
  flush re-entrancy guard),
* the viewport anchoring helper `anchorToViewport` (nine named anchor
  points over an inset-adjusted viewport rectangle).

Numbers are modelled as rationals; JavaScript numbers in this code path are
exact small decimals, so rational arithmetic is faithful for every claim
checked here.  Purely visual state (panel fill, mask graphics, colors) is
not part of the model; geometric outputs that the specification talks about
(content position, scrollbar track and thumb geometry) are.
-/

namespace PhaserDevUI

/-- Math.max on two rationals, written with an explicit comparison so that
concrete states evaluate by kernel reduction. -/
def qmax (a b : ℚ) : ℚ := if a ≤ b then b else a

/-- Math.min on two rationals. -/
def qmin (a b : ℚ) : ℚ := if a ≤ b then a else b

theorem qmax_eq_max (a b : ℚ) : qmax a b = max a b := (max_def a b).symm

theorem qmin_eq_min (a b : ℚ) : qmin a b = min a b := (min_def a b).symm

/-- Phaser.Math.Clamp: largest of lo and the smallest of hi and value. -/
def clampQ (value lo hi : ℚ) : ℚ := qmax lo (qmin hi value)

/-- A content child of the scroll container, reduced to the capabilities the
container probes: a y position (`transform.y ?? 0`) and the measurement
fields checked by `getItemHalfHeight` in priority order
(displayHeight, height, getBounds().height). `none` models an absent
property. -/
structure ScrollItem where
  y : Option ℚ
  displayHeight : Option ℚ
  height : Option ℚ
  boundsHeight : Option ℚ
deriving DecidableEq

/-- DebugScrollContainer.getItemHalfHeight: displayHeight when present and
positive, else height when present and positive, else half the bounds
height when getBounds exists, else 0. -/
def getItemHalfHeight (it : ScrollItem) : ℚ :=
  if 0 < it.displayHeight.getD 0 then it.displayHeight.getD 0 / 2
  else if 0 < it.height.getD 0 then it.height.getD 0 / 2
  else it.boundsHeight.getD 0 / 2

/-- The y value the metrics scan reads for an item (`transform.y ?? 0`). -/
def itemY (it : ScrollItem) : ℚ := it.y.getD 0

/-- Running min of `y - halfHeight` and max of `y + halfHeight` over the
content children, as in `updateContentMetrics`.  The source folds from
+infinity / -infinity; over an empty list it then resets to zero, which is
the `none` case here, and over a non-empty list the fold from the first
item's extents is equivalent. -/
def contentExtents : List ScrollItem → Option (ℚ × ℚ)
  | [] => none
  | it :: rest =>
    some (rest.foldl
      (fun mm jt => (qmin mm.1 (itemY jt - getItemHalfHeight jt),
                     qmax mm.2 (itemY jt + getItemHalfHeight jt)))
      (itemY it - getItemHalfHeight it, itemY it + getItemHalfHeight it))

/-- The aggregated vertical extent of a content list:
`max 0 (maxY - minY)`, or 0 when there are no children. -/
def contentHeightOf (items : List ScrollItem) : ℚ :=
  match contentExtents items with
  | none => 0
  | some mm => qmax 0 (mm.2 - mm.1)

/-- The scrollbar geometry produced by `redrawScrollbar` when it draws:
track rectangle plus thumb rectangle (both share x and barWidth). -/
structure ScrollbarDraw where
  x : ℚ
  barWidth : ℚ
  trackTop : ℚ
  trackHeight : ℚ
  thumbY : ℚ
  thumbHeight : ℚ
deriving DecidableEq

/-- The state of a DebugScrollContainer: the private fields the scroll and
scrollbar logic reads and writes, the content children, the content group
position set by `applyScroll`, and the last drawn scrollbar geometry. -/
structure ScrollState where
  width : ℚ
  height : ℚ
  paddingLeft : ℚ
  paddingRight : ℚ
  paddingTop : ℚ
  paddingBottom : ℚ
  scrollbarEnabled : Bool
  scrollbarWidth : ℚ
  scrollbarMinThumbHeight : ℚ
  contentMinY : ℚ
  contentHeight : ℚ
  scrollY : ℚ
  items : List ScrollItem
  contentX : ℚ
  contentY : ℚ
  scrollbar : Option ScrollbarDraw
deriving DecidableEq

/-- DebugScrollContainer.getViewportLeft. -/
def getViewportLeft (s : ScrollState) : ℚ := -s.width / 2 + s.paddingLeft

/-- DebugScrollContainer.getViewportTop. -/
def getViewportTop (s : ScrollState) : ℚ := -s.height / 2 + s.paddingTop

/-- DebugScrollContainer.getViewportWidth. -/
def getViewportWidth (s : ScrollState) : ℚ :=
  qmax 1 (s.width - s.paddingLeft - s.paddingRight)

/-- DebugScrollContainer.getViewportHeight. -/
def getViewportHeight (s : ScrollState) : ℚ :=
  qmax 1 (s.height - s.paddingTop - s.paddingBottom)

/-- DebugScrollContainer.getMaxScrollY. -/
def getMaxScrollY (s : ScrollState) : ℚ :=
  qmax 0 (s.contentHeight - getViewportHeight s)

/-- DebugScrollContainer.updateContentMetrics: recompute contentMinY and
contentHeight from the current children; both reset to 0 with no children. -/
def updateContentMetrics (s : ScrollState) : ScrollState :=
  match contentExtents s.items with
  | none => { s with contentMinY := 0, contentHeight := 0 }
  | some mm => { s with contentMinY := mm.1, contentHeight := qmax 0 (mm.2 - mm.1) }

/-- DebugScrollContainer.applyScroll: position the content group so its
top-most extent sits at the viewport top, offset by the scroll position. -/
def applyScroll (s : ScrollState) : ScrollState :=
  { s with contentX := getViewportLeft s,
           contentY := getViewportTop s - s.contentMinY - s.scrollY }

/-- DebugScrollContainer.redrawScrollbar: returns the drawn geometry, or
`none` when the bar is cleared and nothing is drawn (disabled, no scroll
range, or viewport narrower than the bar). -/
def redrawScrollbar (s : ScrollState) : Option ScrollbarDraw :=
  if !s.scrollbarEnabled then none
  else if getMaxScrollY s ≤ 0 then none
  else
    let viewportLeft := getViewportLeft s
    let viewportTop := getViewportTop s
    let viewportWidth := getViewportWidth s
    let viewportHeight := getViewportHeight s
    let barWidth := qmax 2 s.scrollbarWidth
    if viewportWidth ≤ barWidth then none
    else
      let rawThumbHeight := viewportHeight / s.contentHeight * viewportHeight
      let thumbHeight := clampQ rawThumbHeight s.scrollbarMinThumbHeight viewportHeight
      let travel := qmax 0 (viewportHeight - thumbHeight)
      let thumbY := viewportTop + s.scrollY / getMaxScrollY s * travel
      some { x := viewportLeft + viewportWidth - barWidth,
             barWidth := barWidth,
             trackTop := viewportTop,
             trackHeight := viewportHeight,
             thumbY := thumbY,
             thumbHeight := thumbHeight }

/-- The scroll clamp step inside `layout()`:
`this._scrollY = Phaser.Math.Clamp(this._scrollY, 0, this.getMaxScrollY())`. -/
def clampScroll (s : ScrollState) : ScrollState :=
  { s with scrollY := clampQ s.scrollY 0 (getMaxScrollY s) }

/-- DebugScrollContainer.layout: recompute content metrics, re-clamp the
scroll position, reposition the content group, redraw the scrollbar.
(The panel fill and clip mask redraws are visual-only and carry no state
read elsewhere.) -/
def layout (s : ScrollState) : ScrollState :=
  let s1 := updateContentMetrics s
  let s2 := clampScroll s1
  let s3 := applyScroll s2
  { s3 with scrollbar := redrawScrollbar s3 }

/-- The payload of the `scroll-changed` event: new scrollY and current
maxScrollY. -/
structure ScrollEvent where
  scrollY : ℚ
  maxScrollY : ℚ
deriving DecidableEq

/-- DebugScrollContainer.setScrollY: clamp into [0, maxScrollY]; no-op when
the clamped value equals the current one; otherwise update, reposition,
redraw the scrollbar and emit one scroll-changed event. -/
def setScrollY (s : ScrollState) (value : ℚ) : ScrollState × List ScrollEvent :=
  let clamped := clampQ value 0 (getMaxScrollY s)
  if clamped = s.scrollY then (s, [])
  else
    let s1 := { s with scrollY := clamped }
    let s2 := applyScroll s1
    let s3 := { s2 with scrollbar := redrawScrollbar s2 }
    (s3, [{ scrollY := s3.scrollY, maxScrollY := getMaxScrollY s3 }])

/-- DebugScrollContainer.scrollBy. -/
def scrollBy (s : ScrollState) (deltaY : ℚ) : ScrollState × List ScrollEvent :=
  if deltaY = 0 then (s, []) else setScrollY s (s.scrollY + deltaY)

/-- DebugScrollContainer.scrollToTop. -/
def scrollToTop (s : ScrollState) : ScrollState × List ScrollEvent :=
  setScrollY s 0

/-- DebugScrollContainer.scrollToBottom. -/
def scrollToBottom (s : ScrollState) : ScrollState × List ScrollEvent :=
  setScrollY s (getMaxScrollY s)

/-- The constructor options of DebugScrollContainer that feed the scroll
logic, with the source's default values. Visual-only options (colors,
stroke, corner radius, wheel settings) are omitted from the model. -/
structure ScrollOptions where
  width : ℚ := 320
  height : ℚ := 220
  paddingLeft : ℚ := 10
  paddingRight : ℚ := 10
  paddingTop : ℚ := 10
  paddingBottom : ℚ := 10
  scrollbarEnabled : Bool := true
  scrollbarWidth : ℚ := 6
  scrollbarMinThumbHeight : ℚ := 24
  initialScrollY : ℚ := 0
deriving DecidableEq

/-- The field initialisation the constructor performs before calling
`layout()`: content list is empty, metrics and scroll position start at 0. -/
def initState (o : ScrollOptions) : ScrollState :=
  { width := o.width, height := o.height,
    paddingLeft := o.paddingLeft, paddingRight := o.paddingRight,
    paddingTop := o.paddingTop, paddingBottom := o.paddingBottom,
    scrollbarEnabled := o.scrollbarEnabled,
    scrollbarWidth := o.scrollbarWidth,
    scrollbarMinThumbHeight := o.scrollbarMinThumbHeight,
    contentMinY := 0, contentHeight := 0, scrollY := 0,
    items := [], contentX := 0, contentY := 0, scrollbar := none }

/-- DebugScrollContainer constructor tail: `this.layout()` then
`this.setScrollY(initialScrollY)`.  Returns the constructed state and any
events emitted during construction. -/
def construct (o : ScrollOptions) : ScrollState × List ScrollEvent :=
  setScrollY (layout (initState o)) o.initialScrollY

/-- DebugScrollContainer.addItem: append to the content list, then layout. -/
def addItem (s : ScrollState) (it : ScrollItem) : ScrollState :=
  layout { s with items := s.items ++ [it] }

/-- DebugScrollContainer.addItems: append all, then layout; no-op on []. -/
def addItems (s : ScrollState) (children : List ScrollItem) : ScrollState :=
  if children.length = 0 then s else layout { s with items := s.items ++ children }


/-! ### Helper lemmas about the scroll model -/

theorem getMaxScrollY_nonneg (s : ScrollState) : 0 ≤ getMaxScrollY s := by
  simp [getMaxScrollY, qmax_eq_max]

theorem clampQ_nonneg (v hi : ℚ) : 0 ≤ clampQ v 0 hi := by
  simp [clampQ, qmax_eq_max]

theorem clampQ_le_hi (v hi : ℚ) (h : 0 ≤ hi) : clampQ v 0 hi ≤ hi := by
  simp only [clampQ, qmax_eq_max, qmin_eq_min]
  exact max_le h (min_le_left hi v)

theorem clampQ_clampQ (v hi : ℚ) (h : 0 ≤ hi) :
    clampQ (clampQ v 0 hi) 0 hi = clampQ v 0 hi := by
  simp only [clampQ, qmax_eq_max, qmin_eq_min]
  rw [min_eq_right (max_le h (min_le_left hi v)), ← max_assoc, max_self]

theorem updateContentMetrics_items (s : ScrollState) :
    (updateContentMetrics s).items = s.items := by
  unfold updateContentMetrics
  cases contentExtents s.items <;> rfl

theorem updateContentMetrics_contentHeight (s : ScrollState) :
    (updateContentMetrics s).contentHeight = contentHeightOf s.items := by
  unfold updateContentMetrics contentHeightOf
  cases contentExtents s.items <;> rfl

theorem layout_scrollY (s : ScrollState) :
    (layout s).scrollY =
      clampQ s.scrollY 0 (getMaxScrollY (updateContentMetrics s)) := by
  simp [layout, clampScroll, applyScroll, updateContentMetrics]
  cases contentExtents s.items <;> rfl

theorem layout_items (s : ScrollState) : (layout s).items = s.items := by
  simp [layout, clampScroll, applyScroll]
  exact updateContentMetrics_items s

theorem layout_contentHeight (s : ScrollState) :
    (layout s).contentHeight = contentHeightOf s.items := by
  simp [layout, clampScroll, applyScroll]
  exact updateContentMetrics_contentHeight s

theorem layout_getMaxScrollY (s : ScrollState) :
    getMaxScrollY (layout s) = getMaxScrollY (updateContentMetrics s) := by
  simp [layout, clampScroll, applyScroll, getMaxScrollY, getViewportHeight]

theorem redrawScrollbar_congr (s t : ScrollState)
    (h1 : s.scrollbarEnabled = t.scrollbarEnabled)
    (h2 : s.contentHeight = t.contentHeight)
    (h3 : s.scrollY = t.scrollY)
    (h4 : s.width = t.width)
    (h5 : s.height = t.height)
    (h6 : s.paddingLeft = t.paddingLeft)
    (h7 : s.paddingRight = t.paddingRight)
    (h8 : s.paddingTop = t.paddingTop)
    (h9 : s.paddingBottom = t.paddingBottom)
    (h10 : s.scrollbarWidth = t.scrollbarWidth)
    (h11 : s.scrollbarMinThumbHeight = t.scrollbarMinThumbHeight) :
    redrawScrollbar s = redrawScrollbar t := by
  unfold redrawScrollbar getMaxScrollY getViewportHeight getViewportLeft
    getViewportTop getViewportWidth
  rw [h1, h2, h3, h4, h5, h6, h7, h8, h9, h10, h11]

/-- Claim C1: for every DebugScrollContainer, after any call to layout()
returns, 0 ≤ getScrollY() ≤ getMaxScrollY() holds, and getMaxScrollY() is
max(0, contentHeight − viewportHeight), where contentHeight is the
aggregated vertical extent of the current content children and
viewportHeight is the visible viewport height. -/
theorem claim_c1 (s : ScrollState) :
    0 ≤ (layout s).scrollY ∧
    (layout s).scrollY ≤ getMaxScrollY (layout s) ∧
    getMaxScrollY (layout s) =
      qmax 0 ((layout s).contentHeight - getViewportHeight (layout s)) ∧
    (layout s).contentHeight = contentHeightOf (layout s).items := by
  refine ⟨?_, ?_, rfl, ?_⟩
  · rw [layout_scrollY]; exact clampQ_nonneg _ _
  · rw [layout_scrollY, layout_getMaxScrollY]
    exact clampQ_le_hi _ _ (getMaxScrollY_nonneg _)
  · rw [layout_contentHeight, layout_items]

/-- Claim C3: setScrollY(v) sets scrollY to the clamp of v into
[0, getMaxScrollY()]; if the clamped value equals the current scrollY the
call changes no state and emits no event; otherwise it updates the content
position, redraws the scrollbar, and emits exactly one scroll-changed
notification carrying the new scrollY and the current maxScrollY. -/
theorem claim_c3 (s : ScrollState) (v : ℚ) :
    (setScrollY s v).1.scrollY = clampQ v 0 (getMaxScrollY s) ∧
    (clampQ v 0 (getMaxScrollY s) = s.scrollY → setScrollY s v = (s, [])) ∧
    (clampQ v 0 (getMaxScrollY s) ≠ s.scrollY →
      (setScrollY s v).2 =
        [{ scrollY := clampQ v 0 (getMaxScrollY s), maxScrollY := getMaxScrollY s }] ∧
      (setScrollY s v).1.contentX = getViewportLeft s ∧
      (setScrollY s v).1.contentY =
        getViewportTop s - s.contentMinY - clampQ v 0 (getMaxScrollY s) ∧
      (setScrollY s v).1.scrollbar = redrawScrollbar (setScrollY s v).1) := by
  by_cases h : clampQ v 0 (getMaxScrollY s) = s.scrollY
  · refine ⟨by simp [setScrollY, h], fun _ => by simp [setScrollY, h],
      fun hc => absurd h hc⟩
  · simp only [setScrollY, if_neg h]
    refine ⟨rfl, fun hc => absurd hc h, fun _ => ⟨?_, rfl, ?_, ?_⟩⟩
    · simp [getMaxScrollY, getViewportHeight, applyScroll]
    · simp [applyScroll, getViewportTop]
    · exact redrawScrollbar_congr _ _ rfl rfl rfl rfl rfl rfl rfl rfl rfl rfl rfl

/-- Claim C10: immediately after the DebugScrollContainer constructor
returns, getScrollY() equals 0 regardless of any initialScrollY option:
the content list is empty at construction time, so getMaxScrollY() is 0
and the constructor's setScrollY(initialScrollY) clamps to 0. -/
theorem claim_c10 (o : ScrollOptions) :
    (construct o).1.scrollY = 0 ∧ getMaxScrollY (construct o).1 = 0 := by
  have hvh : (1 : ℚ) ≤ getViewportHeight (layout (initState o)) := by
    simp [getViewportHeight, qmax_eq_max]
  have hch : (layout (initState o)).contentHeight = 0 := by
    rw [layout_contentHeight]; rfl
  have hmax : getMaxScrollY (layout (initState o)) = 0 := by
    simp only [getMaxScrollY, qmax_eq_max, hch]
    rw [max_eq_left]
    simp only [zero_sub, neg_nonpos]
    linarith
  have hsc : (layout (initState o)).scrollY = 0 := by
    rw [layout_scrollY]
    have : getMaxScrollY (updateContentMetrics (initState o)) = 0 := by
      rw [← layout_getMaxScrollY]; exact hmax
    simp [this, clampQ, qmax_eq_max, qmin_eq_min, initState]
  have hclamp : clampQ o.initialScrollY 0 (getMaxScrollY (layout (initState o))) = 0 := by
    simp only [hmax, clampQ, qmax_eq_max, qmin_eq_min]
    rw [max_eq_left (min_le_left 0 o.initialScrollY)]
  unfold construct setScrollY
  rw [hclamp, hsc]
  simp [hsc, hmax]

theorem qmax_zero_nonneg (x : ℚ) : 0 ≤ qmax 0 x := by simp [qmax_eq_max]

theorem clampQ_clampQ_qmax (v x : ℚ) :
    clampQ (clampQ v 0 (qmax 0 x)) 0 (qmax 0 x) = clampQ v 0 (qmax 0 x) :=
  clampQ_clampQ _ _ (qmax_zero_nonneg x)

theorem layout_layout (s : ScrollState) : layout (layout s) = layout s := by
  obtain ⟨w, h, pl, pr, pt, pb, en, sw, mt, cmy, ch, sy, its, cx, cy, sb⟩ := s
  unfold layout updateContentMetrics clampScroll applyScroll
  cases hx : contentExtents its <;>
    simp [hx, clampQ_clampQ_qmax, getMaxScrollY, getViewportHeight, getViewportLeft,
      getViewportTop, redrawScrollbar, getViewportWidth]

/-- Claim C7: calling layout() twice in a row with no mutation between the
calls yields identical scrollY, contentMinY, contentHeight, and scrollbar
geometry after the second call as after the first. -/
theorem claim_c7 (s : ScrollState) :
    (layout (layout s)).scrollY = (layout s).scrollY ∧
    (layout (layout s)).contentMinY = (layout s).contentMinY ∧
    (layout (layout s)).contentHeight = (layout s).contentHeight ∧
    (layout (layout s)).scrollbar = (layout s).scrollbar := by
  rw [layout_layout]
  exact ⟨rfl, rfl, rfl, rfl⟩

/-! ### Concrete scenario states -/

/-- A stacked item of display height 40 at vertical position y. -/
def item40 (y : ℚ) : ScrollItem :=
  { y := some y, displayHeight := some 40, height := none, boundsHeight := none }

/-- Ten stacked items of height 40 with 10px gaps: centers 50 apart,
total extent 10*40 + 9*10 = 490. -/
def c4items : List ScrollItem :=
  [item40 20, item40 70, item40 120, item40 170, item40 220,
   item40 270, item40 320, item40 370, item40 420, item40 470]

/-- Scroll container constructed with height 220 and all other options at
their defaults (so 10px top and bottom padding), holding the ten items. -/
def c4defaultState : ScrollState :=
  addItems (construct { height := 220 }).1 c4items

/-- Scroll container constructed with height 220 and zero top/bottom
padding (so the visible viewport height is 220), holding the ten items. -/
def c4zeroPad : ScrollState :=
  addItems (construct { height := 220, paddingTop := 0, paddingBottom := 0 }).1 c4items

/-- Claim C4 counterexample: with the container constructed as
`new DebugScrollContainer(scene, { height: 220 })` — all other options at
their constructor defaults, hence 10px top and bottom padding — the ten
stacked items give contentHeight 490, but the viewport height is 200 and
getMaxScrollY() evaluates to 290, not 270 as the claim states. -/
theorem claim_c4_counterexample :
    c4defaultState.contentHeight = 490 ∧
    getMaxScrollY c4defaultState = 290 ∧ (290 : ℚ) ≠ 270 := by
  refine ⟨?_, ?_, by norm_num⟩ <;>
    norm_num [c4defaultState, c4items, item40, addItems, construct, setScrollY,
      layout, initState, updateContentMetrics, contentExtents, clampScroll,
      applyScroll, clampQ, qmax, qmin, getMaxScrollY, getViewportHeight,
      getViewportLeft, getViewportTop, getViewportWidth, redrawScrollbar,
      itemY, getItemHalfHeight]

/-- Claim C4 amended: for a scroll viewport whose visible viewport height
is 220 — constructed with height 220 and zero top/bottom padding —
containing the ten stacked items (content height 490), getMaxScrollY()
equals 270; after scrollToBottom(), getScrollY() = 270; after a further
scrollBy(-1000), getScrollY() = 0. -/
theorem claim_c4 :
    c4zeroPad.contentHeight = 490 ∧
    getMaxScrollY c4zeroPad = 270 ∧
    (scrollToBottom c4zeroPad).1.scrollY = 270 ∧
    (scrollBy (scrollToBottom c4zeroPad).1 (-1000)).1.scrollY = 0 := by
  refine ⟨?_, ?_, ?_, ?_⟩ <;>
    norm_num [c4zeroPad, c4items, item40, addItems, construct, setScrollY,
      layout, initState, updateContentMetrics, contentExtents, clampScroll,
      applyScroll, clampQ, qmax, qmin, getMaxScrollY, getViewportHeight,
      getViewportLeft, getViewportTop, getViewportWidth, redrawScrollbar,
      itemY, getItemHalfHeight, scrollToBottom, scrollBy]

/-- A scroll container whose viewport height (10) is smaller than the
minimum thumb height (24): constructed with height 30 and default padding,
one item of height 100, scrolled to 10. -/
def exC6 : ScrollState :=
  (setScrollY (addItem (construct { height := 30 }).1
    { y := some 50, displayHeight := some 100, height := none, boundsHeight := none }) 10).1

/-- Claim C6 counterexample: on `exC6` the scrollbar is enabled and
maxScroll = 90 > 0; a thumb is drawn with the claimed height
clamp(vh·(vh/ch), minThumb, vh) = 24, but since 24 exceeds the viewport
height 10 the drawn thumb sits at thumbY = viewportTop = -5, while the
claim formula viewportTop + (scrollY/maxScroll)·(vh − thumbHeight) gives
-5 + (10/90)·(10 − 24) = -59/9 ≠ -5. -/
theorem claim_c6_counterexample :
    exC6.scrollbarEnabled = true ∧
    0 < getMaxScrollY exC6 ∧
    redrawScrollbar exC6 =
      some { x := 144, barWidth := 6, trackTop := -5, trackHeight := 10,
             thumbY := -5, thumbHeight := 24 } ∧
    clampQ (getViewportHeight exC6 * (getViewportHeight exC6 / exC6.contentHeight))
        exC6.scrollbarMinThumbHeight (getViewportHeight exC6) = 24 ∧
    getViewportTop exC6 + exC6.scrollY / getMaxScrollY exC6 *
        (getViewportHeight exC6 - 24) ≠ (-5 : ℚ) := by
  refine ⟨?_, ?_, ?_, ?_, ?_⟩ <;>
    norm_num [exC6, addItem, construct, setScrollY, layout, initState,
      updateContentMetrics, contentExtents, clampScroll, applyScroll, clampQ,
      qmax, qmin, getMaxScrollY, getViewportHeight, getViewportLeft,
      getViewportTop, getViewportWidth, redrawScrollbar, itemY, getItemHalfHeight]

/-- Claim C6 amended: whenever contentHeight ≤ viewportHeight (so
maxScroll = 0) no thumb is drawn; and any drawn thumb has height
clamp(viewportHeight·(viewportHeight/contentHeight), minThumbHeight,
viewportHeight) and vertical position
thumbY = viewportTop + (scrollY/maxScroll)·max(0, viewportHeight −
thumbHeight) — the thumb travel is clamped to be non-negative, which
matters exactly when minThumbHeight exceeds the viewport height. -/
theorem claim_c6 (s : ScrollState) (d : ScrollbarDraw) :
    (s.contentHeight ≤ getViewportHeight s → redrawScrollbar s = none) ∧
    (redrawScrollbar s = some d →
      d.thumbHeight =
        clampQ (getViewportHeight s * (getViewportHeight s / s.contentHeight))
          s.scrollbarMinThumbHeight (getViewportHeight s) ∧
      d.thumbY = getViewportTop s + s.scrollY / getMaxScrollY s *
          qmax 0 (getViewportHeight s - d.thumbHeight)) := by
  constructor
  · intro h
    have hm : getMaxScrollY s ≤ 0 := by
      unfold getMaxScrollY
      rw [qmax_eq_max]
      exact le_of_eq (max_eq_left (sub_nonpos.mpr h))
    simp [redrawScrollbar, hm]
  · intro hd
    simp only [redrawScrollbar] at hd
    split at hd
    · exact absurd hd (by simp)
    · split at hd
      · exact absurd hd (by simp)
      · split at hd
        · exact absurd hd (by simp)
        · rw [Option.some.injEq] at hd
          subst hd
          refine ⟨?_, rfl⟩
          rw [mul_comm (getViewportHeight s) (getViewportHeight s / s.contentHeight)]

/-- Claim C6 witness: the amended theorem applied to the empty default
container (no thumb) and to `exC6` (thumb drawn at the clamped-travel
position). -/
theorem claim_c6_witness :
    redrawScrollbar (construct ({} : ScrollOptions)).1 = none ∧
    (24 : ℚ) =
      clampQ (getViewportHeight exC6 * (getViewportHeight exC6 / exC6.contentHeight))
        exC6.scrollbarMinThumbHeight (getViewportHeight exC6) ∧
    (-5 : ℚ) = getViewportTop exC6 + exC6.scrollY / getMaxScrollY exC6 *
        qmax 0 (getViewportHeight exC6 - 24) := by
  refine ⟨(claim_c6 (construct ({} : ScrollOptions)).1 ⟨0, 0, 0, 0, 0, 0⟩).1 ?_, ?_, ?_⟩
  · norm_num [construct, setScrollY, layout, initState, updateContentMetrics,
      contentExtents, clampScroll, applyScroll, clampQ, qmax, qmin, getMaxScrollY,
      getViewportHeight, getViewportLeft, getViewportTop, getViewportWidth,
      redrawScrollbar]
  · exact ((claim_c6 exC6
      { x := 144, barWidth := 6, trackTop := -5, trackHeight := 10,
        thumbY := -5, thumbHeight := 24 }).2 (by
      norm_num [exC6, addItem, construct, setScrollY, layout, initState,
        updateContentMetrics, contentExtents, clampScroll, applyScroll, clampQ,
        qmax, qmin, getMaxScrollY, getViewportHeight, getViewportLeft,
        getViewportTop, getViewportWidth, redrawScrollbar, itemY,
        getItemHalfHeight])).1
  · exact ((claim_c6 exC6
      { x := 144, barWidth := 6, trackTop := -5, trackHeight := 10,
        thumbY := -5, thumbHeight := 24 }).2 (by
      norm_num [exC6, addItem, construct, setScrollY, layout, initState,
        updateContentMetrics, contentExtents, clampScroll, applyScroll, clampQ,
        qmax, qmin, getMaxScrollY, getViewportHeight, getViewportLeft,
        getViewportTop, getViewportWidth, redrawScrollbar, itemY,
        getItemHalfHeight])).2

/-- Claim C3 witness: on the freshly constructed empty container,
setScrollY(5) clamps to 0 and is a complete no-op; on `exC6`
(scrollY 10, maxScroll 90), setScrollY(50) emits exactly one
scroll-changed event with the clamped value and current max. -/
theorem claim_c3_witness :
    setScrollY (construct ({} : ScrollOptions)).1 5 = ((construct ({} : ScrollOptions)).1, []) ∧
    (setScrollY exC6 50).2 =
      [{ scrollY := clampQ 50 0 (getMaxScrollY exC6),
         maxScrollY := getMaxScrollY exC6 }] := by
  constructor
  · exact (claim_c3 (construct ({} : ScrollOptions)).1 5).2.1 (by
      norm_num [construct, setScrollY, layout, initState, updateContentMetrics,
        contentExtents, clampScroll, applyScroll, clampQ, qmax, qmin,
        getMaxScrollY, getViewportHeight, getViewportLeft, getViewportTop,
        getViewportWidth, redrawScrollbar])
  · exact ((claim_c3 exC6 50).2.2 (by
      norm_num [exC6, addItem, construct, setScrollY, layout, initState,
        updateContentMetrics, contentExtents, clampScroll, applyScroll, clampQ,
        qmax, qmin, getMaxScrollY, getViewportHeight, getViewportLeft,
        getViewportTop, getViewportWidth, redrawScrollbar, itemY,
        getItemHalfHeight])).1

/-! ### Layout scheduler (layoutAuto, src/layoutAuto.ts) -/

/-- The mutable state captured by the layoutAuto closure: the dirty set
(a JS Set iterates in insertion order and ignores re-insertion, so it is
modelled as a duplicate-free list), the destroyed flag and the isFlushing
re-entrancy guard.  Targets are identified by natural numbers. -/
structure Sched where
  dirty : List ℕ
  destroyed : Bool
  flushing : Bool
deriving DecidableEq

/-- JS Set.add: appends if absent, keeps the original position otherwise. -/
def addDirty (d : List ℕ) (t : ℕ) : List ℕ := if t ∈ d then d else d ++ [t]

/-- layoutAuto markDirty: no-op after destroy, else add to the dirty set. -/
def markDirty (s : Sched) (t : ℕ) : Sched :=
  if s.destroyed then s else { s with dirty := addDirty s.dirty t }

/-- layoutAuto remove: no-op after destroy, else delete from the dirty set. -/
def removeDirty (s : Sched) (t : ℕ) : Sched :=
  if s.destroyed then s else { s with dirty := s.dirty.erase t }

/-- layoutAuto clear: no-op after destroy, else drop all pending entries. -/
def clearDirty (s : Sched) : Sched :=
  if s.destroyed then s else { s with dirty := [] }

/-- layoutAuto destroyScheduler: set destroyed and clear pending entries
(the frame-event detach has no counterpart in the state model). -/
def destroySched (s : Sched) : Sched :=
  if s.destroyed then s else { s with destroyed := true, dirty := [] }

/-- One scheduler interaction a target's layout() body can perform.
`throwErr` models the body raising an exception at that point. -/
inductive Act where
  | mark : ℕ → Act
  | removeA : ℕ → Act
  | clearA : Act
  | flushA : Act
  | destroyA : Act
  | throwErr : Act
deriving DecidableEq

/-- Result of running scheduler code: the state afterwards, the ordered
list of targets whose layout() was invoked, and whether an exception is
propagating out. -/
structure SRes where
  state : Sched
  log : List ℕ
  threw : Bool
deriving DecidableEq

/-- A pending piece of scheduler work for the fuel-indexed interpreter. -/
inductive Job where
  | flushJob : Job
  | queueJob : List ℕ → Job
  | actsJob : List Act → Job
  | actJob : Act → Job
deriving DecidableEq

/-- Fuel-indexed interpreter for the layoutAuto scheduler. `env t` is the
body of target t's layout() in terms of the scheduler calls it makes.
`flushJob` is flushNow from the source: guard (destroyed, empty dirty set,
already flushing), set the flushing flag, snapshot the dirty set as the
queue and clear it, lay out each queued target in order (stopping if
destroyed mid-pass), and reset the flushing flag after the loop — the
reset sits after the loop with no try/finally, so it is skipped when a
layout() throws and the exception propagates.  Fuel only bounds recursion
depth; each theorem below supplies enough fuel for its scenario. -/
def execJ (env : ℕ → List Act) : ℕ → Job → Sched → SRes
  | 0, _, s => ⟨s, [], false⟩
  | f + 1, .flushJob, s =>
    if s.destroyed || s.dirty.isEmpty || s.flushing then ⟨s, [], false⟩
    else
      let r := execJ env f (.queueJob s.dirty) { s with flushing := true, dirty := [] }
      if r.threw then r else ⟨{ r.state with flushing := false }, r.log, false⟩
  | _ + 1, .queueJob [], s => ⟨s, [], false⟩
  | f + 1, .queueJob (t :: rest), s =>
    if s.destroyed then ⟨s, [], false⟩
    else
      let r := execJ env f (.actsJob (env t)) s
      if r.threw then ⟨r.state, t :: r.log, true⟩
      else
        let r2 := execJ env f (.queueJob rest) r.state
        ⟨r2.state, t :: r.log ++ r2.log, r2.threw⟩
  | _ + 1, .actsJob [], s => ⟨s, [], false⟩
  | f + 1, .actsJob (a :: rest), s =>
    let r := execJ env f (.actJob a) s
    if r.threw then r
    else
      let r2 := execJ env f (.actsJob rest) r.state
      ⟨r2.state, r.log ++ r2.log, r2.threw⟩
  | f + 1, .actJob a, s =>
    match a with
    | .mark t => ⟨markDirty s t, [], false⟩
    | .removeA t => ⟨removeDirty s t, [], false⟩
    | .clearA => ⟨clearDirty s, [], false⟩
    | .destroyA => ⟨destroySched s, [], false⟩
    | .flushA => execJ env f .flushJob s
    | .throwErr => ⟨s, [], true⟩

/-- Applying a sequence of top-level markDirty calls between flushes. -/
def applyMarks (s : Sched) (ms : List ℕ) : Sched := ms.foldl markDirty s

/-- A freshly created scheduler. -/
def cleanSched : Sched := ⟨[], false, false⟩

/-- Layout bodies that do not touch the scheduler. -/
def noopEnv : ℕ → List Act := fun _ => []

/-- Target 0 re-marks itself dirty from inside its own layout(). -/
def envSelfRemark : ℕ → List Act := fun t => if t = 0 then [Act.mark 0] else []

/-- Every target's layout() throws. -/
def envThrow : ℕ → List Act := fun _ => [Act.throwErr]

theorem execJ_flush_of_flushing (env : ℕ → List Act) (f : ℕ) (s : Sched)
    (h : s.flushing = true) : execJ env f Job.flushJob s = ⟨s, [], false⟩ := by
  cases f with
  | zero => rfl
  | succ f => simp [execJ, h]

theorem execJ_act_flushing (env : ℕ → List Act) (f : ℕ) (a : Act) (s : Sched)
    (h : s.flushing = true) :
    (execJ env f (Job.actJob a) s).state.flushing = true ∧
    (execJ env f (Job.actJob a) s).log = [] := by
  cases f with
  | zero => exact ⟨h, rfl⟩
  | succ f =>
    cases a <;>
      simp [execJ, markDirty, removeDirty, clearDirty, destroySched,
        execJ_flush_of_flushing env f _ h, h] <;>
      split <;> simp [h]

theorem execJ_acts_flushing (env : ℕ → List Act) :
    ∀ (f : ℕ) (acts : List Act) (s : Sched), s.flushing = true →
      (execJ env f (Job.actsJob acts) s).state.flushing = true ∧
      (execJ env f (Job.actsJob acts) s).log = []
  | 0, _, _, h => ⟨h, rfl⟩
  | _ + 1, [], _, h => ⟨h, rfl⟩
  | f + 1, a :: rest, s, h => by
    have h1 := execJ_act_flushing env f a s h
    by_cases ht : (execJ env f (Job.actJob a) s).threw
    · simp [execJ, ht, h1.1, h1.2]
    · have h2 := execJ_acts_flushing env f rest (execJ env f (Job.actJob a) s).state h1.1
      simp [execJ, ht, h1.2, h2.1, h2.2]

theorem execJ_queue_flushing (env : ℕ → List Act) :
    ∀ (f : ℕ) (q : List ℕ) (s : Sched), s.flushing = true →
      (execJ env f (Job.queueJob q) s).state.flushing = true ∧
      ∀ x ∈ (execJ env f (Job.queueJob q) s).log, x ∈ q
  | 0, _, _, h => ⟨h, by simp [execJ]⟩
  | _ + 1, [], _, h => ⟨h, by simp [execJ]⟩
  | f + 1, t :: rest, s, h => by
    by_cases hd : s.destroyed
    · simp [execJ, hd, h]
    · have h1 := execJ_acts_flushing env f (env t) s h
      by_cases ht : (execJ env f (Job.actsJob (env t)) s).threw
      · refine ⟨by simp [execJ, hd, ht, h1.1], ?_⟩
        intro x hx
        simp [execJ, hd, ht, h1.2] at hx
        simp [hx]
      · have h2 := execJ_queue_flushing env f rest
          (execJ env f (Job.actsJob (env t)) s).state h1.1
        refine ⟨by simp [execJ, hd, ht, h1.1, h2.1], ?_⟩
        intro x hx
        simp [execJ, hd, ht, h1.2] at hx
        rcases hx with hx | hx
        · simp [hx]
        · exact List.mem_cons_of_mem t (h2.2 x hx)

theorem execJ_flush_log_sub (env : ℕ → List Act) (f : ℕ) (s : Sched) :
    ∀ x ∈ (execJ env f Job.flushJob s).log, x ∈ s.dirty := by
  cases f with
  | zero => simp [execJ]
  | succ f =>
    by_cases hg : (s.destroyed || s.dirty.isEmpty || s.flushing) = true
    · simp [execJ, hg]
    · have hq := execJ_queue_flushing env f s.dirty
        { s with flushing := true, dirty := [] } rfl
      by_cases ht : (execJ env f (Job.queueJob s.dirty)
          { s with flushing := true, dirty := [] }).threw
      · simpa [execJ, hg, ht] using hq.2
      · simpa [execJ, hg, ht] using hq.2

/-- The dirty list after a sequence of Set.add calls. -/
def dirtyAfter (d : List ℕ) (ms : List ℕ) : List ℕ := ms.foldl addDirty d

theorem dirtyAfter_append (d : List ℕ) (xs ys : List ℕ) :
    dirtyAfter d (xs ++ ys) = dirtyAfter (dirtyAfter d xs) ys :=
  List.foldl_append _ _ _ _

theorem mem_addDirty (d : List ℕ) (t x : ℕ) :
    x ∈ addDirty d t ↔ x ∈ d ∨ x = t := by
  unfold addDirty
  split <;> rename_i h
  · constructor
    · exact Or.inl
    · rintro (hx | rfl)
      · exact hx
      · exact h
  · simp

theorem mem_dirtyAfter :
    ∀ (ms d : List ℕ) (x : ℕ), x ∈ dirtyAfter d ms ↔ x ∈ d ∨ x ∈ ms
  | [], d, x => by simp [dirtyAfter]
  | t :: rest, d, x => by
    have ih := mem_dirtyAfter rest (addDirty d t) x
    simp only [dirtyAfter, List.foldl_cons] at ih ⊢
    rw [ih, mem_addDirty]
    simp only [List.mem_cons]
    tauto

theorem nodup_addDirty (d : List ℕ) (t : ℕ) (h : d.Nodup) :
    (addDirty d t).Nodup := by
  unfold addDirty
  split <;> rename_i ht
  · exact h
  · simp [List.nodup_append, h, ht]

theorem nodup_dirtyAfter :
    ∀ (ms d : List ℕ), d.Nodup → (dirtyAfter d ms).Nodup
  | [], _, h => h
  | t :: rest, d, h =>
    nodup_dirtyAfter rest (addDirty d t) (nodup_addDirty d t h)

theorem dirtyAfter_prefix :
    ∀ (ms d : List ℕ), ∃ e, dirtyAfter d ms = d ++ e
  | [], d => ⟨[], by simp [dirtyAfter]⟩
  | t :: rest, d => by
    obtain ⟨e, he⟩ := dirtyAfter_prefix rest (addDirty d t)
    simp only [dirtyAfter, List.foldl_cons] at he ⊢
    unfold addDirty at he ⊢
    split at he <;> rename_i ht
    · rw [if_pos ht]
      exact ⟨e, he⟩
    · rw [if_neg ht]
      exact ⟨t :: e, by rw [he]; simp⟩

theorem length_addDirty (d : List ℕ) (t : ℕ) :
    (addDirty d t).length ≤ d.length + 1 := by
  unfold addDirty
  split <;> simp

theorem length_dirtyAfter :
    ∀ (ms d : List ℕ), (dirtyAfter d ms).length ≤ d.length + ms.length
  | [], d => by simp [dirtyAfter]
  | t :: rest, d => by
    have ih := length_dirtyAfter rest (addDirty d t)
    have h1 := length_addDirty d t
    simp only [dirtyAfter, List.foldl_cons] at ih ⊢
    simp only [List.length_cons]
    omega

theorem applyMarks_destroyed :
    ∀ (ms : List ℕ) (s : Sched), (applyMarks s ms).destroyed = s.destroyed
  | [], _ => rfl
  | t :: rest, s => by
    have ih := applyMarks_destroyed rest (markDirty s t)
    simp only [applyMarks, List.foldl_cons] at ih ⊢
    rw [ih]
    unfold markDirty
    split <;> rfl

theorem applyMarks_flushing :
    ∀ (ms : List ℕ) (s : Sched), (applyMarks s ms).flushing = s.flushing
  | [], _ => rfl
  | t :: rest, s => by
    have ih := applyMarks_flushing rest (markDirty s t)
    simp only [applyMarks, List.foldl_cons] at ih ⊢
    rw [ih]
    unfold markDirty
    split <;> rfl

theorem applyMarks_dirty :
    ∀ (ms : List ℕ) (s : Sched), s.destroyed = false →
      (applyMarks s ms).dirty = dirtyAfter s.dirty ms
  | [], _, _ => rfl
  | t :: rest, s, h => by
    have hmd : markDirty s t = { s with dirty := addDirty s.dirty t } := by
      unfold markDirty
      rw [if_neg (by simp [h])]
    simp only [applyMarks, dirtyAfter, List.foldl_cons, hmd]
    exact applyMarks_dirty rest { s with dirty := addDirty s.dirty t } (by simp [h])

theorem execJ_acts_nil (env : ℕ → List Act) (f : ℕ) (s : Sched) :
    execJ env f (Job.actsJob []) s = ⟨s, [], false⟩ := by
  cases f <;> rfl

theorem execJ_queue_noop (f : ℕ) :
    ∀ (q : List ℕ) (s : Sched), s.destroyed = false → q.length < f →
      execJ noopEnv f (Job.queueJob q) s = ⟨s, q, false⟩ := by
  induction f with
  | zero => intro q s _ h; omega
  | succ f ih =>
    intro q s hd hl
    cases q with
    | nil => rfl
    | cons t rest =>
      have hacts : execJ noopEnv f (Job.actsJob (noopEnv t)) s = ⟨s, [], false⟩ :=
        execJ_acts_nil noopEnv f s
      have hrest : execJ noopEnv f (Job.queueJob rest) s = ⟨s, rest, false⟩ :=
        ih rest s hd (by simp at hl; omega)
      simp [execJ, hd, hacts, hrest]

theorem execJ_flush_noop (f : ℕ) (s : Sched)
    (hd : s.destroyed = false) (hf : s.flushing = false)
    (hne : s.dirty ≠ []) (hl : s.dirty.length < f) :
    execJ noopEnv (f + 1) Job.flushJob s = ⟨{ s with dirty := [] }, s.dirty, false⟩ := by
  have hg : (s.destroyed || s.dirty.isEmpty || s.flushing) = false := by
    simp [hd, hf, hne]
  have hq := execJ_queue_noop f s.dirty { s with flushing := true, dirty := [] }
    (by simp [hd]) hl
  obtain ⟨d, sde, sfl⟩ := s
  simp only at hd hf hne hl hg hq
  subst hd; subst hf
  simp [execJ, hg, hq]

/-- Log of a flush over a scheduler that was clean and then received the
markDirty calls `ms`: exactly the first-occurrence dirty list. -/
theorem flush_log_marks (ms : List ℕ) :
    (execJ noopEnv (ms.length + 2) Job.flushJob (applyMarks cleanSched ms)).log =
      dirtyAfter [] ms := by
  have hd : (applyMarks cleanSched ms).destroyed = false := applyMarks_destroyed ms cleanSched
  have hf : (applyMarks cleanSched ms).flushing = false := applyMarks_flushing ms cleanSched
  have hdy : (applyMarks cleanSched ms).dirty = dirtyAfter [] ms :=
    applyMarks_dirty ms cleanSched rfl
  by_cases hne : dirtyAfter [] ms = []
  · rw [hne]
    have hemp : (applyMarks cleanSched ms).dirty.isEmpty = true := by simp [hdy, hne]
    cases hms : ms.length + 2 with
    | zero => omega
    | succ f => simp [execJ, hemp]
  · have hl : (applyMarks cleanSched ms).dirty.length < ms.length + 1 := by
      rw [hdy]
      have := length_dirtyAfter ms []
      simp at this
      omega
    have hfl := execJ_flush_noop (ms.length + 1) (applyMarks cleanSched ms) hd hf
      (by rw [hdy]; exact hne) hl
    rw [show ms.length + 2 = ms.length + 1 + 1 from rfl, hfl, hdy]

/-- Claim C2: a flush snapshots the current dirty set into an ordered batch
and clears the live set before invoking any target's layout(): (1) a
flush() call made while a flush is already in progress is a guarded no-op
(no state change, no layout calls — no recursive re-entry); (2) every
target laid out during a flush was already in the dirty set when the flush
began, so a markDirty call made from inside a target's layout() is not
processed in the current flush; and (3) concretely, when target 0's
layout() re-marks target 0, a flush of dirty set [0] lays target 0 out
exactly once and leaves it pending in the dirty set for the next flush. -/
theorem claim_c2 :
    (∀ (env : ℕ → List Act) (f : ℕ) (s : Sched), s.flushing = true →
      execJ env f Job.flushJob s = ⟨s, [], false⟩) ∧
    (∀ (env : ℕ → List Act) (f : ℕ) (s : Sched),
      ∀ x ∈ (execJ env f Job.flushJob s).log, x ∈ s.dirty) ∧
    execJ envSelfRemark 4 Job.flushJob ⟨[0], false, false⟩ =
      ⟨⟨[0], false, false⟩, [0], false⟩ :=
  ⟨execJ_flush_of_flushing, execJ_flush_log_sub, by decide⟩

/-- Claim C2 witness: the re-entrancy guard applied to a concrete mid-flush
state, and the batch-membership part applied to the concrete self-re-mark
flush. -/
theorem claim_c2_witness :
    execJ envSelfRemark 4 Job.flushJob ⟨[5], false, true⟩ =
      ⟨⟨[5], false, true⟩, [], false⟩ ∧
    (0 : ℕ) ∈ (⟨[0], false, false⟩ : Sched).dirty :=
  ⟨claim_c2.1 envSelfRemark 4 ⟨[5], false, true⟩ rfl,
   claim_c2.2.1 envSelfRemark 4 ⟨[0], false, false⟩ 0 (by decide)⟩

/-- Claim C5 (code bug in flushNow): there is no try/finally around the
layout loop, so when a target's layout() throws mid-flush the trailing
isFlushing reset is skipped.  Flushing a scheduler whose dirty set is [0]
and whose target 0 throws leaves the exception propagating with the
flushing flag still set; marking a fresh target dirty afterwards works,
but the next flush() is silently skipped — it returns with no state change
and no layout call, contradicting the claimed guaranteed-cleanup reset. -/
theorem claim_c5 :
    execJ envThrow 4 Job.flushJob ⟨[0], false, false⟩ =
      ⟨⟨[], false, true⟩, [0], true⟩ ∧
    markDirty ⟨[], false, true⟩ 1 = ⟨[1], false, true⟩ ∧
    execJ envThrow 4 Job.flushJob ⟨[1], false, true⟩ =
      ⟨⟨[1], false, true⟩, [], false⟩ :=
  ⟨by decide, by decide, by decide⟩

/-- Claim C8: marking a target t dirty any number N ≥ 1 of times between
flushes results in exactly one layout() call on t at the next flush; and
for two targets first marked in the order a then b, the flush invokes a's
layout() strictly before b's (their single occurrences appear in that
order in the call log). -/
theorem claim_c8 :
    (∀ (ms : List ℕ) (t : ℕ), t ∈ ms →
      (execJ noopEnv (ms.length + 2) Job.flushJob (applyMarks cleanSched ms)).log.count t = 1) ∧
    (∀ (ms₁ ms₂ ms₃ : List ℕ) (a b : ℕ), a ∉ ms₁ → b ∉ ms₁ ++ a :: ms₂ →
      [a, b].Sublist (execJ noopEnv ((ms₁ ++ a :: ms₂ ++ b :: ms₃).length + 2) Job.flushJob
        (applyMarks cleanSched (ms₁ ++ a :: ms₂ ++ b :: ms₃))).log) := by
  constructor
  · intro ms t ht
    rw [flush_log_marks ms]
    exact List.count_eq_one_of_mem (nodup_dirtyAfter ms [] List.nodup_nil)
      ((mem_dirtyAfter ms [] t).mpr (Or.inr ht))
  · intro ms₁ ms₂ ms₃ a b ha hb
    rw [flush_log_marks]
    have hsplit : ms₁ ++ a :: ms₂ ++ b :: ms₃ = (ms₁ ++ a :: ms₂) ++ (b :: ms₃) := by
      simp
    rw [hsplit, dirtyAfter_append]
    have hbp : b ∉ dirtyAfter [] (ms₁ ++ a :: ms₂) := by
      rw [mem_dirtyAfter]
      simp only [List.not_mem_nil, false_or]
      exact hb
    have hap : a ∈ dirtyAfter [] (ms₁ ++ a :: ms₂) := by
      rw [mem_dirtyAfter]
      simp
    have hadd : addDirty (dirtyAfter [] (ms₁ ++ a :: ms₂)) b =
        dirtyAfter [] (ms₁ ++ a :: ms₂) ++ [b] := by
      unfold addDirty
      rw [if_neg hbp]
    obtain ⟨e, he⟩ := dirtyAfter_prefix ms₃ (dirtyAfter [] (ms₁ ++ a :: ms₂) ++ [b])
    simp only [dirtyAfter, List.foldl_cons] at he ⊢
    rw [show addDirty (List.foldl addDirty [] (ms₁ ++ a :: ms₂)) b =
      List.foldl addDirty [] (ms₁ ++ a :: ms₂) ++ [b] from hadd, he, List.append_assoc]
    have h1 : [a].Sublist (List.foldl addDirty [] (ms₁ ++ a :: ms₂)) :=
      List.singleton_sublist.mpr hap
    have h2 : [b].Sublist ([b] ++ e) := List.sublist_append_left [b] e
    exact List.Sublist.append h1 h2

/-- Claim C8 witness: marks [0, 1, 0] — target 0 marked twice, first
marked before target 1 — the flush lays out 0 exactly once, and 0 before 1. -/
theorem claim_c8_witness :
    (execJ noopEnv 5 Job.flushJob (applyMarks cleanSched [0, 1, 0])).log.count 0 = 1 ∧
    [0, 1].Sublist (execJ noopEnv 5 Job.flushJob (applyMarks cleanSched [0, 1, 0])).log :=
  ⟨claim_c8.1 [0, 1, 0] 0 (by decide),
   claim_c8.2 [] [] [0] 0 1 (by decide) (by decide)⟩

/-! ### Viewport anchoring (anchorToViewport) -/

/-- The nine named viewport anchor points. -/
inductive ViewportAnchor where
  | topLeft
  | topCenter
  | topRight
  | centerLeft
  | center
  | centerRight
  | bottomLeft
  | bottomCenter
  | bottomRight
deriving DecidableEq

/-- Safe-area insets in game units. -/
structure SafeAreaInsets where
  left : ℚ
  right : ℚ
  top : ℚ
  bottom : ℚ
deriving DecidableEq

/-- zeroInsets. -/
def zeroInsets : SafeAreaInsets := ⟨0, 0, 0, 0⟩

/-- The viewport rectangle returned by getViewportRect. -/
structure ViewportRect where
  x : ℚ
  y : ℚ
  width : ℚ
  height : ℚ
deriving DecidableEq

/-- The size-probing capabilities of an anchor target, in the priority
order getDisplaySize checks them: displayWidth/displayHeight properties,
then width/height, then a getBounds() rectangle.  `none` models an absent
property. -/
structure AnchorTarget where
  displayWidth : Option ℚ
  displayHeight : Option ℚ
  width : Option ℚ
  height : Option ℚ
  boundsSize : Option (ℚ × ℚ)
deriving DecidableEq

/-- getDisplaySize: displayWidth/Height when either is present, else
width/height when either is present, else the getBounds dimensions when
the probe exists, else zero; each coordinate clamped to be non-negative. -/
def getDisplaySize (t : AnchorTarget) : ℚ × ℚ :=
  if t.displayWidth.isSome || t.displayHeight.isSome then
    (qmax 0 (t.displayWidth.getD 0), qmax 0 (t.displayHeight.getD 0))
  else if t.width.isSome || t.height.isSome then
    (qmax 0 (t.width.getD 0), qmax 0 (t.height.getD 0))
  else
    match t.boundsSize with
    | some wh => (qmax 0 wh.1, qmax 0 wh.2)
    | none => (0, 0)

/-- computeAnchoredX from the source: left-column anchors sit at
left + halfWidth, center-column at left + availableWidth/2, right-column
at right − halfWidth. -/
def computeAnchoredX (anchor : ViewportAnchor)
    (left availableWidth right halfWidth : ℚ) : ℚ :=
  match anchor with
  | .topLeft | .centerLeft | .bottomLeft => left + halfWidth
  | .topCenter | .center | .bottomCenter => left + availableWidth / 2
  | .topRight | .centerRight | .bottomRight => right - halfWidth

/-- computeAnchoredY from the source: top-row anchors sit at
top + halfHeight, center-row at top + availableHeight/2, bottom-row at
bottom − halfHeight. -/
def computeAnchoredY (anchor : ViewportAnchor)
    (top availableHeight bottom halfHeight : ℚ) : ℚ :=
  match anchor with
  | .topLeft | .topCenter | .topRight => top + halfHeight
  | .centerLeft | .center | .centerRight => top + availableHeight / 2
  | .bottomLeft | .bottomCenter | .bottomRight => bottom - halfHeight

/-- placeTarget from anchorToViewport: inset-adjusted viewport edges,
available size clamped to be non-negative, half the target's display size,
the anchor formulas, then the caller offset added.  The viewport rectangle
and the resolved insets are parameters (getViewportRect reads the host
scale manager and getSafeAreaInsets reads browser CSS values; both are
environment inputs to this computation; with useSafeArea false the insets
are zeroInsets). -/
def placeTarget (viewport : ViewportRect) (insets : SafeAreaInsets)
    (anchor : ViewportAnchor) (offsetX offsetY : ℚ) (target : AnchorTarget) : ℚ × ℚ :=
  let left := viewport.x + insets.left
  let right := viewport.x + viewport.width - insets.right
  let top := viewport.y + insets.top
  let bottom := viewport.y + viewport.height - insets.bottom
  let availableWidth := qmax 0 (right - left)
  let availableHeight := qmax 0 (bottom - top)
  let size := getDisplaySize target
  let halfW := size.1 / 2
  let halfH := size.2 / 2
  (computeAnchoredX anchor left availableWidth right halfW + offsetX,
   computeAnchoredY anchor top availableHeight bottom halfH + offsetY)

/-- A target with display size 100 by 50. -/
def demoTarget : AnchorTarget := ⟨some 100, some 50, none, none, none⟩

/-- Claim C9: each of the nine named anchor points maps to left, centered
or right horizontally and top, centered or bottom vertically within the
inset-adjusted viewport rectangle, with half the target's display size
moved toward the viewport interior and the caller offset then added; in
particular a 100 by 50 target anchored top-right with offset (−10, 10) in
an 800 by 600 viewport with zero insets is placed at (740, 35). -/
theorem claim_c9 :
    (∀ (v : ViewportRect) (i : SafeAreaInsets) (ox oy : ℚ) (t : AnchorTarget),
      placeTarget v i ViewportAnchor.topLeft ox oy t =
        (v.x + i.left + (getDisplaySize t).1 / 2 + ox,
         v.y + i.top + (getDisplaySize t).2 / 2 + oy) ∧
      placeTarget v i ViewportAnchor.topCenter ox oy t =
        (v.x + i.left + qmax 0 (v.x + v.width - i.right - (v.x + i.left)) / 2 + ox,
         v.y + i.top + (getDisplaySize t).2 / 2 + oy) ∧
      placeTarget v i ViewportAnchor.topRight ox oy t =
        (v.x + v.width - i.right - (getDisplaySize t).1 / 2 + ox,
         v.y + i.top + (getDisplaySize t).2 / 2 + oy) ∧
      placeTarget v i ViewportAnchor.centerLeft ox oy t =
        (v.x + i.left + (getDisplaySize t).1 / 2 + ox,
         v.y + i.top + qmax 0 (v.y + v.height - i.bottom - (v.y + i.top)) / 2 + oy) ∧
      placeTarget v i ViewportAnchor.center ox oy t =
        (v.x + i.left + qmax 0 (v.x + v.width - i.right - (v.x + i.left)) / 2 + ox,
         v.y + i.top + qmax 0 (v.y + v.height - i.bottom - (v.y + i.top)) / 2 + oy) ∧
      placeTarget v i ViewportAnchor.centerRight ox oy t =
        (v.x + v.width - i.right - (getDisplaySize t).1 / 2 + ox,
         v.y + i.top + qmax 0 (v.y + v.height - i.bottom - (v.y + i.top)) / 2 + oy) ∧
      placeTarget v i ViewportAnchor.bottomLeft ox oy t =
        (v.x + i.left + (getDisplaySize t).1 / 2 + ox,
         v.y + v.height - i.bottom - (getDisplaySize t).2 / 2 + oy) ∧
      placeTarget v i ViewportAnchor.bottomCenter ox oy t =
        (v.x + i.left + qmax 0 (v.x + v.width - i.right - (v.x + i.left)) / 2 + ox,
         v.y + v.height - i.bottom - (getDisplaySize t).2 / 2 + oy) ∧
      placeTarget v i ViewportAnchor.bottomRight ox oy t =
        (v.x + v.width - i.right - (getDisplaySize t).1 / 2 + ox,
         v.y + v.height - i.bottom - (getDisplaySize t).2 / 2 + oy)) ∧
    placeTarget ⟨0, 0, 800, 600⟩ zeroInsets ViewportAnchor.topRight (-10) 10 demoTarget =
      (740, 35) := by
  constructor
  · intro v i ox oy t
    refine ⟨rfl, rfl, rfl, rfl, rfl, rfl, rfl, rfl, rfl⟩
  · norm_num [placeTarget, computeAnchoredX, computeAnchoredY, getDisplaySize,
      demoTarget, zeroInsets, qmax]

end PhaserDevUI
